import Mathlib

/-!
Verification of the email triage pipeline in `mail.py` (echo_bot).

Strings are modelled as `List Char`.  Python string primitives used by the
source (`str.strip`, `str.split`, the `in` operator, `str.startswith`) are
embedded as executable functions below, and the functions of `mail.py` are
translated on top of them.  External collaborators (the Gmail/Calendar
services, the Ollama subprocess, `base64` decoding, `dateparser`) are
modelled as explicit parameters or small result types, exactly at the
boundary where the source calls them.
-/

namespace EchoBot

/-- Whitespace characters stripped by Python's `str.strip()` (ASCII range;
all strings appearing in this development are ASCII). -/
def isPySpace (c : Char) : Bool :=
  c == ' ' || c == '\t' || c == '\n' || c == '\r' || c == '\x0b' || c == '\x0c'

/-- Left part of Python `str.strip()`: drop leading whitespace. -/
def stripLeft (s : List Char) : List Char := s.dropWhile isPySpace

/-- Right part of Python `str.strip()`: drop trailing whitespace. -/
def stripRight (s : List Char) : List Char := (s.reverse.dropWhile isPySpace).reverse

/-- Python `s.strip()`. -/
def pyStrip (s : List Char) : List Char := stripRight (stripLeft s)

/-- Boolean prefix test on character lists (Python `str.startswith`). -/
def isPre : List Char → List Char → Bool
  | [], _ => true
  | _ :: _, [] => false
  | a :: as, b :: bs => a == b && isPre as bs

/-- Python `hay.__contains__(needle)`, i.e. `needle in hay`. -/
def strContains (hay needle : List Char) : Bool :=
  hay.tails.any fun t => isPre needle t

/-- Python `c in s` for a single character. -/
def containsChar (c : Char) (s : List Char) : Bool := s.any fun x => x == c

/-- Everything after the first occurrence of `needle` in the list: Python
`s.split(needle, 1)[-1]` in the case where `needle in s` holds (the only
case in which the source uses it). -/
def afterFirst (needle : List Char) : List Char → List Char
  | [] => []
  | c :: rest =>
      if isPre needle (c :: rest) then List.drop needle.length (c :: rest)
      else afterFirst needle rest

/-- Python `s.split(sep)` for a one-character separator: every segment is
kept, including empty ones. -/
def pySplit (sep : Char) : List Char → List (List Char)
  | [] => [[]]
  | c :: rest =>
      match pySplit sep rest with
      | [] => [[]]
      | f :: r => if c = sep then [] :: f :: r else (c :: f) :: r

/-! Basic lemmas about the Python string primitives. -/

theorem isPre_iff (l₁ l₂ : List Char) : isPre l₁ l₂ = true ↔ l₁ <+: l₂ := by
  induction l₁ generalizing l₂ with
  | nil => simp [isPre, List.nil_prefix]
  | cons a as ih =>
      cases l₂ with
      | nil => simp [isPre]
      | cons b bs =>
          simp only [isPre, Bool.and_eq_true, beq_iff_eq, ih]
          constructor
          · rintro ⟨rfl, t, rfl⟩
            exact ⟨t, rfl⟩
          · rintro ⟨t, ht⟩
            injection ht with h1 h2
            exact ⟨h1, t, h2⟩

theorem strContains_iff (hay needle : List Char) :
    strContains hay needle = true ↔ needle <:+: hay := by
  rw [List.infix_iff_prefix_suffix]
  unfold strContains
  rw [List.any_eq_true]
  constructor
  · rintro ⟨t, ht, hp⟩
    exact ⟨t, (isPre_iff needle t).mp hp, (List.mem_tails t hay).mp ht⟩
  · rintro ⟨t, h1, h2⟩
    exact ⟨t, (List.mem_tails t hay).mpr h2, (isPre_iff needle t).mpr h1⟩

theorem afterFirst_suffix (needle l : List Char) : afterFirst needle l <:+ l := by
  induction l with
  | nil => simp [afterFirst]
  | cons c rest ih =>
      unfold afterFirst
      by_cases h : isPre needle (c :: rest) = true
      · simp only [h, if_true]
        exact List.drop_suffix _ _
      · simp only [h, if_false]
        exact ih.trans (List.suffix_cons c rest)

theorem afterFirst_append (needle rest : List Char) (h : needle ≠ []) :
    afterFirst needle (needle ++ rest) = rest := by
  cases needle with
  | nil => exact absurd rfl h
  | cons c t =>
      have hpre : isPre (c :: t) (c :: t ++ rest) = true :=
        (isPre_iff _ _).mpr ⟨rest, rfl⟩
      show afterFirst (c :: t) (c :: (t ++ rest)) = rest
      unfold afterFirst
      simp only [List.cons_append] at hpre
      simp only [hpre, if_true]
      exact List.drop_left (c :: t) rest

theorem dropWhile_head_false (p : Char → Bool) (l : List Char) :
    ∀ c, (l.dropWhile p).head? = some c → p c = false := by
  induction l with
  | nil => intro c hc; simp [List.dropWhile] at hc
  | cons a rest ih =>
      intro c hc
      by_cases h : p a = true
      · rw [List.dropWhile_cons, if_pos h] at hc
        exact ih c hc
      · rw [List.dropWhile_cons, if_neg h] at hc
        simp only [List.head?_cons, Option.some.injEq] at hc
        rw [← hc]
        exact Bool.eq_false_iff.mpr h

theorem dropWhile_eq_self_of_head (p : Char → Bool) (l : List Char)
    (h : ∀ c, l.head? = some c → p c = false) : l.dropWhile p = l := by
  cases l with
  | nil => rfl
  | cons a rest =>
      have := h a rfl
      rw [List.dropWhile_cons, if_neg (by simp [this])]

theorem dropWhile_dropWhile (p : Char → Bool) (l : List Char) :
    (l.dropWhile p).dropWhile p = l.dropWhile p :=
  dropWhile_eq_self_of_head p _ (dropWhile_head_false p l)

theorem stripLeft_suffix (l : List Char) : stripLeft l <:+ l :=
  List.dropWhile_suffix isPySpace

theorem stripRight_front (l : List Char) : stripRight l <+: l := by
  unfold stripRight
  rcases List.dropWhile_suffix (l := l.reverse) isPySpace with ⟨t, ht⟩
  refine ⟨t.reverse, ?_⟩
  have := congrArg List.reverse ht
  rw [List.reverse_append, List.reverse_reverse] at this
  exact this

theorem stripRight_idem (l : List Char) : stripRight (stripRight l) = stripRight l := by
  unfold stripRight
  rw [List.reverse_reverse, dropWhile_dropWhile]

theorem head?_append_left {α : Type} (l t : List α) (h : l ≠ []) :
    (l ++ t).head? = l.head? := by
  cases l with
  | nil => exact absurd rfl h
  | cons a rest => rfl

theorem getLast?_append_right {α : Type} (a x : List α) (h : x ≠ []) :
    (a ++ x).getLast? = x.getLast? := by
  rw [← List.head?_reverse, ← List.head?_reverse, List.reverse_append]
  exact head?_append_left x.reverse a.reverse (by simpa using h)

theorem stripRight_eq_self_of_last (l : List Char)
    (h : ∀ c, l.getLast? = some c → isPySpace c = false) : stripRight l = l := by
  unfold stripRight
  rw [dropWhile_eq_self_of_head isPySpace l.reverse
    (by intro c hc; exact h c (by rwa [List.head?_reverse] at hc))]
  exact List.reverse_reverse l

theorem stripLeft_eq_self_of_head (l : List Char)
    (h : ∀ c, l.head? = some c → isPySpace c = false) : stripLeft l = l :=
  dropWhile_eq_self_of_head isPySpace l h

theorem pyStrip_eq_self_of (l : List Char)
    (hh : ∀ c, l.head? = some c → isPySpace c = false)
    (hl : ∀ c, l.getLast? = some c → isPySpace c = false) : pyStrip l = l := by
  unfold pyStrip
  rw [stripLeft_eq_self_of_head l hh, stripRight_eq_self_of_last l hl]

theorem pyStrip_sub (l : List Char) : pyStrip l <:+: l :=
  ((stripRight_front (stripLeft l)).isInfix).trans (stripLeft_suffix l).isInfix

theorem pyStrip_idem (l : List Char) : pyStrip (pyStrip l) = pyStrip l := by
  unfold pyStrip
  have hhead : ∀ c, (stripRight (stripLeft l)).head? = some c → isPySpace c = false := by
    intro c hc
    rcases stripRight_front (stripLeft l) with ⟨t, ht⟩
    have hne : stripRight (stripLeft l) ≠ [] := by
      intro hnil
      rw [hnil] at hc
      simp at hc
    have : (stripLeft l).head? = some c := by
      rw [← ht, head?_append_left _ _ hne]
      exact hc
    exact dropWhile_head_false isPySpace l c this
  rw [stripLeft_eq_self_of_head _ hhead, stripRight_idem]

theorem pyStrip_eq_self_parts (l : List Char) (h : pyStrip l = l) :
    stripLeft l = l ∧ stripRight l = l := by
  have h1 : (stripLeft l).length ≤ l.length := (stripLeft_suffix l).sublist.length_le
  have h2 : (stripRight (stripLeft l)).length ≤ (stripLeft l).length :=
    (stripRight_front (stripLeft l)).sublist.length_le
  have hlen : l.length ≤ (stripLeft l).length := by
    conv_lhs => rw [← h]
    exact h2
  have hL : stripLeft l = l :=
    (stripLeft_suffix l).sublist.eq_of_length (le_antisymm h1 hlen)
  refine ⟨hL, ?_⟩
  rw [show pyStrip l = stripRight (stripLeft l) from rfl, hL] at h
  exact h

theorem getLast_not_space_of_pyStrip (l : List Char) (h : pyStrip l = l) :
    ∀ c, l.getLast? = some c → isPySpace c = false := by
  intro c hc
  have hR := (pyStrip_eq_self_parts l h).2
  unfold stripRight at hR
  have := congrArg List.reverse hR
  rw [List.reverse_reverse] at this
  refine dropWhile_head_false isPySpace l.reverse c ?_
  rw [this, List.head?_reverse]
  exact hc

/-!
Embedding of `mail.py`.
-/

/-- Result of running the Ollama subprocess (`mail.py` line 47): either a
captured stdout string, or a `subprocess.SubprocessError` caught by the
handler at line 59. -/
inductive OllamaResult
  | ok (stdout : List Char)
  | subprocessError
deriving DecidableEq

/-- Fallback text returned at `mail.py` line 58 when the cleaned output is
empty or starts with `"Provide"`. -/
def unavailableText : List Char := "AI response unavailable.".data

/-- Fallback text returned at `mail.py` line 61 when the subprocess raises. -/
def executionErrorText : List Char := "AI response unavailable due to execution error.".data

/-- Step at `mail.py` lines 51-53: if the prompt occurs in the output, keep
only what follows its first occurrence, stripped. -/
def sanitizeStep2 (prompt o1 : List Char) : List Char :=
  if strContains o1 prompt then pyStrip (afterFirst prompt o1) else o1

/-- Step at `mail.py` lines 55-56: if a newline remains, keep only what
follows the first newline, stripped. -/
def sanitizeStep3 (o2 : List Char) : List Char :=
  if containsChar '\n' o2 then pyStrip (afterFirst ['\n'] o2) else o2

/-- Step at `mail.py` line 58: empty or `"Provide"`-prefixed output falls
back to the fixed default message. -/
def sanitizeGuard (o3 : List Char) : List Char :=
  if o3.isEmpty || isPre "Provide".data o3 then unavailableText else o3

/-- Output sanitization of `generate_ai_reply` (`mail.py` lines 48-58):
`result.stdout.strip()` followed by the prompt-echo split, the
first-newline split, and the empty/`"Provide"` fallback. -/
def sanitizeOutput (prompt stdout : List Char) : List Char :=
  sanitizeGuard (sanitizeStep3 (sanitizeStep2 prompt (pyStrip stdout)))

/-- Translation of `generate_ai_reply` (`mail.py` lines 43-61).  The
subprocess invocation is an external collaborator, so its outcome is a
parameter: on captured stdout the sanitization chain runs, on a
`SubprocessError` the handler at lines 59-61 returns the execution-error
text. -/
def generate_ai_reply (prompt : List Char) (r : OllamaResult) : List Char :=
  match r with
  | OllamaResult.ok stdout => sanitizeOutput prompt stdout
  | OllamaResult.subprocessError => executionErrorText

/-- Prompt rendered at `mail.py` line 94 for the summary request. -/
def summaryPrompt (body : List Char) : List Char :=
  "###START###\nOutput only a concise summary of the email content in bullet points.\n###END###\n".data ++ body

/-- Prompt rendered at `mail.py` line 98 for the acknowledgment request. -/
def ackPrompt (body : List Char) : List Char :=
  "###START###\nOutput only a polite acknowledgment for the email content on behalf of the owner.\n###END###\n".data ++ body

/-- Disclaimer appended to the acknowledgment reply at `mail.py` line 99. -/
def disclaimerText : List Char :=
  "\n\nThis is an AI-generated response. The owner will reply soon when available.".data

/-- Summary reply text computed at `mail.py` line 95; the backend is the
function from prompt to subprocess outcome. -/
def summaryReply (backend : List Char → OllamaResult) (body : List Char) : List Char :=
  generate_ai_reply (summaryPrompt body) (backend (summaryPrompt body))

/-- Acknowledgment reply text computed at `mail.py` line 99: generated text
plus the fixed disclaimer. -/
def ackReply (backend : List Char → OllamaResult) (body : List Char) : List Char :=
  generate_ai_reply (ackPrompt body) (backend (ackPrompt body)) ++ disclaimerText

/-- Placeholder body set at `mail.py` line 91 when decoding raises. -/
def decodeFailureText : List Char := "Unable to decode email body.".data

/-- Body returned by `process_email` at `mail.py` line 70 when fetching the
message raises an `HttpError`. -/
def fetchFailureText : List Char := "Unable to process email body.".data

/-- First element of `parts` whose `mimeType` is exactly `text/plain`
(`mail.py` lines 83-86).  Each part is `(mimeType, body data)`; the data is
optional because `part['body']['data']` can be absent, which raises inside
the `try`.  Returns `none` when no part matches (the loop finishes with
`body` still `""`). -/
def findFirstPlain : List (List Char × Option (List Char)) → Option (Option (List Char))
  | [] => none
  | (m, d) :: rest => if m = "text/plain".data then some d else findFirstPlain rest

/-- Decode of one base64 payload inside the `try` of `mail.py` lines
81-91: a decode exception degrades to the placeholder. -/
def decodeOrPlaceholder (decode : List Char → Option (List Char)) (d : List Char) :
    List Char :=
  match decode d with
  | some t => t
  | none => decodeFailureText

/-- Body extraction of `process_email` (`mail.py` lines 80-91).  `decode`
models `base64.urlsafe_b64decode(..).decode('utf-8', errors='replace')`,
an external library call: `some` is a successful decode and `none` an
exception, caught at line 89 and degraded to `decodeFailureText`.
`parts` is `payload['parts']` when present; `topBody` is
`payload['body']['data']` when present. -/
def extractBody (decode : List Char → Option (List Char))
    (parts : Option (List (List Char × Option (List Char))))
    (topBody : Option (List Char)) : List Char :=
  match parts with
  | some ps =>
      match findFirstPlain ps with
      | none => []
      | some none => decodeFailureText
      | some (some d) => decodeOrPlaceholder decode d
  | none =>
      match topBody with
      | none => decodeFailureText
      | some d => decodeOrPlaceholder decode d

/-- Header lookup of `mail.py` lines 74-76: first header whose `name`
equals the given name (case-sensitive), as a `next(...)` over the header
list. -/
def getHeader (name : List Char) (headers : List (List Char × List Char)) :
    Option (List Char) :=
  (headers.find? fun h => h.1 == name).map Prod.snd

/-- Serialized outgoing message handed to `messages().send` (`mail.py`
lines 111-136): the MIME headers in assignment order, the text body, and
the `threadId` included in the request body. -/
structure SendPayload where
  headers : List (List Char × List Char)
  body : List Char
  threadId : List Char
deriving DecidableEq

/-- Outcome of `send_thread_reply`: one of the two early returns (lines
117-119 and 126-128) or a composed send. -/
inductive SendAttempt
  | skippedNoSender
  | skippedNoRecipients
  | sent (p : SendPayload)
deriving DecidableEq

/-- Reply-all recipient list of `mail.py` lines 121-125: the stripped
sender, extended with the comma-split cc string when it is nonempty, each
entry stripped, empty entries and the account's own address removed. -/
def replyAllRecipients (myEmail sender cc : List Char) : List (List Char) :=
  ([pyStrip sender] ++ (if cc.isEmpty then [] else pySplit ',' cc)).filterMap fun r =>
    if (pyStrip r).isEmpty || pyStrip r == myEmail then none else some (pyStrip r)

/-- Translation of `send_thread_reply` (`mail.py` lines 106-140).
`myEmail` is the profile address fetched at lines 108-109 (an external
call).  The MIME serialization and base64 encoding of line 135 are not
modelled; the payload keeps the headers, body text and thread id that
determine them. -/
def send_thread_reply (myEmail threadId sender subject text cc : List Char)
    (toSelf : Bool) : SendAttempt :=
  if toSelf then
    SendAttempt.sent
      { headers := [("to".data, myEmail), ("subject".data, "Re: ".data ++ subject)],
        body := text, threadId := threadId }
  else if (pyStrip sender).isEmpty then SendAttempt.skippedNoSender
  else if (replyAllRecipients myEmail sender cc).isEmpty then
    SendAttempt.skippedNoRecipients
  else
    SendAttempt.sent
      { headers := [("to".data, List.intercalate ", ".data
            (replyAllRecipients myEmail sender cc))] ++
          (if cc.isEmpty then [] else [("cc".data, cc)]) ++
          [("subject".data, "Re: ".data ++ subject)],
        body := text, threadId := threadId }

/-- Header names of a composed payload, `[]` for a skipped or absent
attempt. -/
def attemptHeaderNames : Option SendAttempt → List (List Char)
  | some (SendAttempt.sent p) => p.headers.map Prod.fst
  | _ => []

/-- Value of the `cc` header of a composed payload, `none` for a skipped or
absent attempt. -/
def attemptCc : Option SendAttempt → Option (List Char)
  | some (SendAttempt.sent p) => getHeader "cc".data p.headers
  | _ => none

/-- Raw captured stdout of an invocation: empty when the subprocess raised
and produced no output to sanitize. -/
def stdoutOf : OllamaResult → List Char
  | OllamaResult.ok s => s
  | OllamaResult.subprocessError => []

/-- Thread id of a composed payload, `none` for a skipped or absent
attempt. -/
def attemptThreadId : Option SendAttempt → Option (List Char)
  | some (SendAttempt.sent p) => some p.threadId
  | _ => none

/-- Full message as returned by `messages().get(format='full')`, with the
fields `process_email` reads: `threadId`, the header list, and the payload
split into optional `parts` and optional top-level body data. -/
structure FullMsg where
  threadId : List Char
  headers : List (List Char × List Char)
  parts : Option (List (List Char × Option (List Char)))
  topBody : Option (List Char)
deriving DecidableEq

/-- Outcome of the `messages().get` call at `mail.py` line 67: the full
message, or an `HttpError` caught at line 68. -/
inductive Fetched
  | ok (m : FullMsg)
  | httpError
deriving DecidableEq

/-- Observable outcome of `process_email` (`mail.py` lines 63-104): the
returned `(subject, body)` pair and the two send attempts (`none` when the
early return at line 70 prevented the call from happening at all). -/
structure ProcessOutcome where
  subject : List Char
  body : List Char
  summaryAttempt : Option SendAttempt
  ackAttempt : Option SendAttempt
deriving DecidableEq

/-- Translation of `process_email` (`mail.py` lines 63-104).  On a fetch
`HttpError` the function returns `("No Subject", "Unable to process email
body.")` at line 70 before any send.  Otherwise it reads the headers with
first-match lookup and defaults (lines 74-76), extracts the body (lines
80-91), generates both replies (lines 94-99) and performs the self send
and the reply-all send (lines 101-102). -/
def process_email (myEmail : List Char) (decode : List Char → Option (List Char))
    (backend : List Char → OllamaResult) (f : Fetched) : ProcessOutcome :=
  match f with
  | Fetched.httpError =>
      { subject := "No Subject".data, body := fetchFailureText,
        summaryAttempt := none, ackAttempt := none }
  | Fetched.ok m =>
      let subject := (getHeader "Subject".data m.headers).getD "No Subject".data
      let sender := pyStrip ((getHeader "From".data m.headers).getD [])
      let cc := (getHeader "Cc".data m.headers).getD []
      let body := extractBody decode m.parts m.topBody
      { subject := subject, body := body,
        summaryAttempt :=
          some (send_thread_reply myEmail m.threadId sender subject
            (summaryReply backend body) cc true),
        ackAttempt :=
          some (send_thread_reply myEmail m.threadId sender subject
            (ackReply backend body) cc false) }

/-- Naive aware datetime as handled by `dateparser`/`datetime` in
`mail.py`: calendar fields plus a fixed UTC offset in minutes. -/
structure PyDateTime where
  year : Nat
  month : Nat
  day : Nat
  hour : Nat
  minute : Nat
  second : Nat
  tzOffsetMinutes : Int
deriving DecidableEq

/-- Days in a month with the Gregorian leap rule, as used by Python's
`datetime` arithmetic. -/
def daysInMonth (y m : Nat) : Nat :=
  if m = 2 then
    if y % 4 = 0 && (y % 100 ≠ 0 || y % 400 = 0) then 29 else 28
  else if m = 4 || m = 6 || m = 9 || m = 11 then 30
  else 31

/-- Next calendar day. -/
def nextDay (y m d : Nat) : Nat × Nat × Nat :=
  if d < daysInMonth y m then (y, m, d + 1)
  else if m < 12 then (y, m + 1, 1)
  else (y + 1, 1, 1)

/-- Python `start_time + timedelta(hours=1)` (`mail.py` line 151): adds one
hour to the wall clock, rolling over at most one day, keeping the offset. -/
def addOneHour (dt : PyDateTime) : PyDateTime :=
  if dt.hour + 1 ≤ 23 then { dt with hour := dt.hour + 1 }
  else
    match nextDay dt.year dt.month dt.day with
    | (y, m, d) => { dt with year := y, month := m, day := d, hour := 0 }

/-- Decimal digits padded to two places. -/
def pad2 (n : Nat) : List Char :=
  if n < 10 then '0' :: Nat.toDigits 10 n else Nat.toDigits 10 n

/-- Decimal digits padded to four places (years in this development are
four-digit). -/
def pad4 (n : Nat) : List Char :=
  if n < 10 then '0' :: '0' :: '0' :: Nat.toDigits 10 n
  else if n < 100 then '0' :: '0' :: Nat.toDigits 10 n
  else if n < 1000 then '0' :: Nat.toDigits 10 n
  else Nat.toDigits 10 n

/-- Python `datetime.isoformat()` for an aware datetime with whole-minute
offset and zero microseconds: `YYYY-MM-DDTHH:MM:SS+HH:MM`. -/
def isoformatDT (dt : PyDateTime) : List Char :=
  pad4 dt.year ++ "-".data ++ pad2 dt.month ++ "-".data ++ pad2 dt.day ++
  "T".data ++ pad2 dt.hour ++ ":".data ++ pad2 dt.minute ++ ":".data ++ pad2 dt.second ++
  (if dt.tzOffsetMinutes ≥ 0 then
      '+' :: (pad2 (dt.tzOffsetMinutes.toNat / 60) ++ ":".data ++ pad2 (dt.tzOffsetMinutes.toNat % 60))
    else
      '-' :: (pad2 ((-dt.tzOffsetMinutes).toNat / 60) ++ ":".data ++ pad2 ((-dt.tzOffsetMinutes).toNat % 60)))

/-- Event payload built at `mail.py` lines 153-157. -/
structure CalendarEvent where
  summary : List Char
  startDateTime : List Char
  startTimeZone : List Char
  endDateTime : List Char
  endTimeZone : List Char
deriving DecidableEq

/-- Translation of `create_calendar_event` (`mail.py` lines 146-164): with
no start time it returns at line 149 before building an event or calling
the provider (`none` here means no `events().insert` call is made); with a
start time it builds the payload with `end = start + 1 hour` and the fixed
`Asia/Kolkata` timezone on both ends. -/
def create_calendar_event (summary : List Char) (startTime : Option PyDateTime) :
    Option CalendarEvent :=
  match startTime with
  | none => none
  | some st =>
      some { summary := summary,
             startDateTime := isoformatDT st,
             startTimeZone := "Asia/Kolkata".data,
             endDateTime := isoformatDT (addOneHour st),
             endTimeZone := "Asia/Kolkata".data }

/-- Effects of one iteration of the `main` loop (`mail.py` lines 172-179)
on a single message. -/
structure MessageEffects where
  outcome : ProcessOutcome
  calendar : Option CalendarEvent
  unreadRemovalAttempted : Bool
deriving DecidableEq

/-- One iteration of the loop in `main` (`mail.py` lines 172-179):
`process_email`, then `extract_event_time` on the returned body (`timeOf`
models the external `dateparser.parse`), then `create_calendar_event`, then
the `messages().modify` call removing the `UNREAD` label, which is
executed unconditionally for every message reached by the loop. -/
def mainStep (myEmail : List Char) (decode : List Char → Option (List Char))
    (backend : List Char → OllamaResult) (timeOf : List Char → Option PyDateTime)
    (f : Fetched) : MessageEffects :=
  let o := process_email myEmail decode backend f
  let startTime := timeOf o.body
  let cal := create_calendar_event ("Meeting: ".data ++ o.subject) startTime
  { outcome := o, calendar := cal, unreadRemovalAttempted := true }

/-! Structural lemmas about the sanitization chain. -/

theorem sanitizeStep2_sub (p o1 : List Char) : sanitizeStep2 p o1 <:+: o1 := by
  unfold sanitizeStep2
  split
  · exact (pyStrip_sub _).trans (afterFirst_suffix p o1).isInfix
  · exact List.infix_refl _

theorem sanitizeStep3_sub (o2 : List Char) : sanitizeStep3 o2 <:+: o2 := by
  unfold sanitizeStep3
  split
  · exact (pyStrip_sub _).trans (afterFirst_suffix ['\n'] o2).isInfix
  · exact List.infix_refl _

theorem sanitizeOutput_sub (p out : List Char) :
    sanitizeOutput p out = unavailableText ∨ sanitizeOutput p out <:+: out := by
  unfold sanitizeOutput sanitizeGuard
  split
  · exact Or.inl rfl
  · exact Or.inr (((sanitizeStep3_sub _).trans (sanitizeStep2_sub _ _)).trans
      (pyStrip_sub out))

theorem sanitizeSteps_strip (p out : List Char) :
    pyStrip (sanitizeStep3 (sanitizeStep2 p (pyStrip out))) =
      sanitizeStep3 (sanitizeStep2 p (pyStrip out)) := by
  unfold sanitizeStep3
  split
  · exact pyStrip_idem _
  · unfold sanitizeStep2
    split
    · exact pyStrip_idem _
    · exact pyStrip_idem out

theorem sanitizeOutput_shape (p out : List Char) :
    sanitizeOutput p out = unavailableText ∨
      (pyStrip (sanitizeOutput p out) = sanitizeOutput p out ∧
       (sanitizeOutput p out).isEmpty = false ∧
       isPre "Provide".data (sanitizeOutput p out) = false) := by
  unfold sanitizeOutput sanitizeGuard
  split
  · exact Or.inl rfl
  · rename_i h
    right
    simp only [Bool.or_eq_true, not_or, Bool.not_eq_true] at h
    exact ⟨sanitizeSteps_strip p out, h.1, h.2⟩

theorem findFirstPlain_append (pre : List (List Char × Option (List Char)))
    (d : Option (List Char)) (rest : List (List Char × Option (List Char)))
    (h : ∀ q ∈ pre, q.1 ≠ "text/plain".data) :
    findFirstPlain (pre ++ ("text/plain".data, d) :: rest) = some d := by
  induction pre with
  | nil => simp [findFirstPlain]
  | cons q pre' ih =>
      obtain ⟨m, dd⟩ := q
      have hm : m ≠ "text/plain".data := h (m, dd) (List.mem_cons_self _ _)
      rw [List.cons_append]
      show (if m = "text/plain".data then some dd
            else findFirstPlain (pre' ++ ("text/plain".data, d) :: rest)) = some d
      rw [if_neg hm]
      exact ih fun q hq => h q (List.mem_cons_of_mem _ hq)

/-! Claims. -/

/-- Claim C2, counterexample. With sender `a@x.com`, cc `b@x.com, a@x.com`
and own address `a@x.com`, the reply-all message is sent with To header
`b@x.com`, but the original cc string is copied verbatim into the
outgoing `cc` header (`mail.py` lines 130-131), so the own address
`a@x.com` does appear among the outgoing recipients: it is one of the
comma-split, trimmed entries of the sent `cc` header.  This refutes the
claim that the own address appears nowhere among the outgoing recipients
(to or cc). -/
theorem claim2_cex :
    attemptCc (some (send_thread_reply "a@x.com".data "t1".data "a@x.com".data
        "s".data "hi".data "b@x.com, a@x.com".data false)) =
      some "b@x.com, a@x.com".data ∧
    "a@x.com".data ∈ (pySplit ',' "b@x.com, a@x.com".data).map pyStrip := by
  constructor
  · decide
  · decide

/-- Claim C2, amended.  The To recipients of a reply-all send are the
stripped sender plus the comma-split, trimmed cc entries, with blank
entries and the account's own address removed (so no To recipient is ever
blank or the own address), and in the spec's example the message is sent
with To exactly `b@x.com`; however the outgoing `cc` header additionally
carries the original cc string verbatim, in which the own address may
still occur. -/
theorem claim2_thm (myEmail sender cc r : List Char)
    (h : r ∈ replyAllRecipients myEmail sender cc) :
    (r ≠ myEmail ∧ r ≠ []) ∧
    send_thread_reply "a@x.com".data "t1".data "a@x.com".data "s".data "hi".data
        "b@x.com, a@x.com".data false =
      SendAttempt.sent
        { headers := [("to".data, "b@x.com".data),
                      ("cc".data, "b@x.com, a@x.com".data),
                      ("subject".data, "Re: s".data)],
          body := "hi".data, threadId := "t1".data } := by
  refine ⟨?_, by decide⟩
  unfold replyAllRecipients at h
  rw [List.mem_filterMap] at h
  obtain ⟨a, _, ha⟩ := h
  by_cases hc : ((pyStrip a).isEmpty || pyStrip a == myEmail) = true
  · rw [if_pos hc] at ha
    exact Option.noConfusion ha
  · rw [if_neg hc] at ha
    injection ha with ha'
    simp only [Bool.or_eq_true, not_or, Bool.not_eq_true, beq_iff_eq] at hc
    subst ha'
    refine ⟨hc.2, fun he => ?_⟩
    rw [he] at hc
    simp at hc

theorem claim2_wit :
    "b@x.com".data ∈ replyAllRecipients "a@x.com".data "a@x.com".data "b@x.com, a@x.com".data ∧
    ("b@x.com".data ≠ "a@x.com".data ∧ "b@x.com".data ≠ ([] : List Char)) :=
  ⟨by decide,
   (claim2_thm "a@x.com".data "a@x.com".data "b@x.com, a@x.com".data "b@x.com".data
      (by decide)).1⟩

/-- Claim C3, counterexample.  When fetching the message fails with an
`HttpError`, no reply send is attempted and no calendar insert happens
(with the recognizer finding no time in the placeholder body), but the
loop in `main` (`mail.py` line 177) still attempts the `UNREAD` label
removal: the message does not remain unread, refuting the claim. -/
theorem claim3_cex :
    mainStep "me@x.com".data (fun _ => none) (fun _ => OllamaResult.subprocessError)
        (fun _ => none) Fetched.httpError =
      { outcome := { subject := "No Subject".data, body := fetchFailureText,
                     summaryAttempt := none, ackAttempt := none },
        calendar := none, unreadRemovalAttempted := true } := by
  decide

/-- Claim C3, amended.  A message whose fetch fails with a transport error
is skipped for replies: neither send call is reached, and when the
date/time recognizer finds no time in the placeholder body no calendar
insert is attempted; processing continues (nothing escapes the handler),
but the unread-label removal is still attempted unconditionally, so the
message does not remain unread. -/
theorem claim3_thm (myEmail : List Char) (decode : List Char → Option (List Char))
    (backend : List Char → OllamaResult) (timeOf : List Char → Option PyDateTime)
    (h : timeOf fetchFailureText = none) :
    mainStep myEmail decode backend timeOf Fetched.httpError =
      { outcome := { subject := "No Subject".data, body := fetchFailureText,
                     summaryAttempt := none, ackAttempt := none },
        calendar := none, unreadRemovalAttempted := true } := by
  unfold mainStep process_email
  simp only [h, create_calendar_event]

theorem claim3_wit :
    ((fun (_ : List Char) => (none : Option PyDateTime)) fetchFailureText = none) ∧
    mainStep "me@x.com".data (fun _ => none) (fun _ => OllamaResult.subprocessError)
        (fun _ => none) Fetched.httpError =
      { outcome := { subject := "No Subject".data, body := fetchFailureText,
                     summaryAttempt := none, ackAttempt := none },
        calendar := none, unreadRemovalAttempted := true } :=
  ⟨rfl, claim3_thm "me@x.com".data (fun _ => none) (fun _ => OllamaResult.subprocessError)
      (fun _ => none) rfl⟩

/-- Claim C5, counterexample.  For a multipart message with no `text/plain`
part (a single `text/html` part here) and a decodable top-level body
(`hello`, with a decode that always succeeds), the extracted body is the
empty string left in `body` when the loop at `mail.py` lines 83-86 finds
no match: the top-level body is never consulted, refuting the claim that
it is decoded instead. -/
theorem claim5_cex :
    extractBody (fun l => some l) (some [("text/html".data, some "x".data)])
        (some "hello".data) = [] ∧
    ([] : List Char) ≠ "hello".data := by
  constructor
  · rfl
  · decide

/-- Claim C5, amended.  A single-part message (no `parts` key) has its
top-level body decoded, with a decoding failure degrading to the
placeholder; a multipart message takes the first part whose MIME type is
exactly `text/plain` in document order (decode failure again degrading to
the placeholder); but a multipart message with no `text/plain` part
yields the empty string — the top-level body is not consulted in that
case. -/
theorem claim5_thm (decode : List Char → Option (List Char)) (d top : List Char)
    (pre rest ps : List (List Char × Option (List Char)))
    (h : ∀ q ∈ pre, q.1 ≠ "text/plain".data)
    (h2 : findFirstPlain ps = none) :
    extractBody decode none (some d) = (decode d).getD decodeFailureText ∧
    extractBody decode (some (pre ++ ("text/plain".data, some d) :: rest)) (some top) =
      (decode d).getD decodeFailureText ∧
    extractBody decode (some ps) (some top) = [] := by
  refine ⟨?_, ?_, ?_⟩
  · show decodeOrPlaceholder decode d = (decode d).getD decodeFailureText
    unfold decodeOrPlaceholder
    cases decode d <;> rfl
  · show (match findFirstPlain (pre ++ ("text/plain".data, some d) :: rest) with
          | none => ([] : List Char)
          | some none => decodeFailureText
          | some (some dd) => decodeOrPlaceholder decode dd) =
        (decode d).getD decodeFailureText
    rw [findFirstPlain_append pre (some d) rest h]
    show decodeOrPlaceholder decode d = (decode d).getD decodeFailureText
    unfold decodeOrPlaceholder
    cases decode d <;> rfl
  · show (match findFirstPlain ps with
          | none => ([] : List Char)
          | some none => decodeFailureText
          | some (some dd) => decodeOrPlaceholder decode dd) = []
    rw [h2]

theorem claim5_wit :
    (∀ q ∈ [(("text/html".data : List Char), some "x".data)], q.1 ≠ "text/plain".data) ∧
    findFirstPlain [(("text/html".data : List Char), some "y".data)] = none ∧
    (extractBody (fun l => some l) none (some "hi".data) =
        ((fun (l : List Char) => some l) "hi".data).getD decodeFailureText ∧
     extractBody (fun l => some l)
        (some ([(("text/html".data : List Char), some "x".data)] ++
          ("text/plain".data, some "hi".data) :: [])) (some "t".data) =
        ((fun (l : List Char) => some l) "hi".data).getD decodeFailureText ∧
     extractBody (fun l => some l) (some [(("text/html".data : List Char), some "y".data)])
        (some "t".data) = []) :=
  ⟨by decide, by decide,
   claim5_thm (fun l => some l) "hi".data "t".data
     [("text/html".data, some "x".data)] [] [("text/html".data, some "y".data)]
     (by decide) (by decide)⟩

/-- Claim C6, confirmed.  In reply-all mode with the sender equal to the
account's own (nonblank) address and an empty cc string, the recipient
list after self-filtering is empty and `send_thread_reply` returns at
`mail.py` lines 126-128 without composing or sending anything. -/
theorem claim6_thm (threadId subject text myEmail : List Char)
    (h1 : myEmail ≠ []) (h2 : pyStrip myEmail = myEmail) :
    send_thread_reply myEmail threadId myEmail subject text [] false =
      SendAttempt.skippedNoRecipients := by
  have hie : myEmail.isEmpty = false := by
    cases myEmail with
    | nil => exact absurd rfl h1
    | cons a l => rfl
  unfold send_thread_reply replyAllRecipients
  simp [h2, hie]

theorem claim6_wit :
    ("a@x.com".data ≠ ([] : List Char) ∧ pyStrip "a@x.com".data = "a@x.com".data) ∧
    send_thread_reply "a@x.com".data "t1".data "a@x.com".data "s".data "hi".data [] false =
      SendAttempt.skippedNoRecipients :=
  ⟨⟨by decide, by decide⟩,
   claim6_thm "t1".data "s".data "hi".data "a@x.com".data (by decide) (by decide)⟩

/-- Claim C7, confirmed.  With no start time `create_calendar_event`
returns before building an event or calling the provider; with a start
time, the built event's end is exactly the start plus one hour under the
same fixed `Asia/Kolkata` timezone — in particular start
`2025-03-01T10:00:00+05:30` yields end `2025-03-01T11:00:00+05:30`. -/
theorem claim7_thm (s : List Char) (st : PyDateTime) (e : CalendarEvent)
    (h : create_calendar_event s (some st) = some e) :
    create_calendar_event s none = none ∧
    (e.endTimeZone = e.startTimeZone ∧ e.endDateTime = isoformatDT (addOneHour st)) ∧
    create_calendar_event "Meeting: Hi".data (some ⟨2025, 3, 1, 10, 0, 0, 330⟩) =
      some { summary := "Meeting: Hi".data,
             startDateTime := "2025-03-01T10:00:00+05:30".data,
             startTimeZone := "Asia/Kolkata".data,
             endDateTime := "2025-03-01T11:00:00+05:30".data,
             endTimeZone := "Asia/Kolkata".data } := by
  refine ⟨rfl, ?_, by decide⟩
  unfold create_calendar_event at h
  injection h with h'
  subst h'
  exact ⟨rfl, rfl⟩

theorem claim7_wit :
    create_calendar_event "Meeting: Hi".data (some ⟨2025, 3, 1, 10, 0, 0, 330⟩) =
      some { summary := "Meeting: Hi".data,
             startDateTime := "2025-03-01T10:00:00+05:30".data,
             startTimeZone := "Asia/Kolkata".data,
             endDateTime := "2025-03-01T11:00:00+05:30".data,
             endTimeZone := "Asia/Kolkata".data } ∧
    ("Asia/Kolkata".data = "Asia/Kolkata".data ∧
     "2025-03-01T11:00:00+05:30".data = isoformatDT (addOneHour ⟨2025, 3, 1, 10, 0, 0, 330⟩)) :=
  ⟨by decide,
   (claim7_thm "Meeting: Hi".data ⟨2025, 3, 1, 10, 0, 0, 330⟩
      { summary := "Meeting: Hi".data,
        startDateTime := "2025-03-01T10:00:00+05:30".data,
        startTimeZone := "Asia/Kolkata".data,
        endDateTime := "2025-03-01T11:00:00+05:30".data,
        endTimeZone := "Asia/Kolkata".data } (by decide)).2.1⟩

/-- Claim C9, counterexample.  When the Ollama invocation raises, the
handler at `mail.py` lines 59-61 returns `"AI response unavailable due to
execution error."`, which is not the same string as the fixed default
`"AI response unavailable."` used when cleaning yields empty or
`"Provide"`-prefixed output — refuting the claim that the same fixed
default message is returned in both situations. -/
theorem claim9_cex :
    generate_ai_reply (summaryPrompt "B".data) OllamaResult.subprocessError =
      executionErrorText ∧
    generate_ai_reply (summaryPrompt "B".data) (OllamaResult.ok []) = unavailableText ∧
    executionErrorText ≠ unavailableText := by
  refine ⟨rfl, by decide, by decide⟩

/-- Claim C9, amended.  When the backend invocation raises a subprocess
error, `generate_ai_reply` does not propagate the exception and returns a
fixed default message — but it is a distinct message (`"AI response
unavailable due to execution error."`), not the one used when cleaning
yields empty or instruction-echoing output. -/
theorem claim9_thm (p : List Char) :
    generate_ai_reply p OllamaResult.subprocessError = executionErrorText ∧
    executionErrorText ≠ unavailableText :=
  ⟨rfl, by decide⟩

/-- Strings that are already stripped, free of newlines and of the prompt,
nonempty and not `"Provide"`-prefixed pass through the sanitization chain
unchanged. -/
theorem sanitizeOutput_fixed (p s : List Char) (h1 : pyStrip s = s)
    (h2 : containsChar '\n' s = false) (h3 : strContains s p = false)
    (h4 : s.isEmpty = false) (h5 : isPre "Provide".data s = false) :
    sanitizeOutput p s = s := by
  unfold sanitizeOutput sanitizeStep2 sanitizeStep3 sanitizeGuard
  rw [h1]
  simp [h2, h3, h4, h5]

/-- Claim C4, counterexample.  The output `"a\nb\nc"` (with a prompt that
does not occur in it) cleans to `"b\nc"`, which is itself an already-clean
sanitization result; running the rule chain on it again drops everything
up to its first newline and yields `"c"`, so sanitization is not
idempotent on already-clean input. -/
theorem claim4_cex :
    sanitizeOutput (summaryPrompt "B".data)
        (sanitizeOutput (summaryPrompt "B".data) "a\nb\nc".data) ≠
      sanitizeOutput (summaryPrompt "B".data) "a\nb\nc".data := by
  decide

/-- Claim C4, amended.  Sanitization is idempotent on already-clean input
that contains no newline and does not contain the prompt: rule 2 (the
first-newline split) reapplies to any clean output that still carries a
newline, so full idempotence fails, but under these two conditions the
clean output passes through the chain unchanged. -/
theorem claim4_thm (p r : List Char)
    (hnl : containsChar '\n' (sanitizeOutput p r) = false)
    (hp : strContains (sanitizeOutput p r) p = false) :
    sanitizeOutput p (sanitizeOutput p r) = sanitizeOutput p r := by
  rcases sanitizeOutput_shape p r with hfall | ⟨hstrip, hne, hprov⟩
  · rw [hfall] at hnl hp ⊢
    exact sanitizeOutput_fixed p unavailableText (by decide) (by decide) hp
      (by decide) (by decide)
  · exact sanitizeOutput_fixed p (sanitizeOutput p r) hstrip hnl hp hne hprov

theorem claim4_wit :
    (containsChar '\n' (sanitizeOutput (summaryPrompt "B".data) "hello".data) = false ∧
     strContains (sanitizeOutput (summaryPrompt "B".data) "hello".data)
       (summaryPrompt "B".data) = false) ∧
    sanitizeOutput (summaryPrompt "B".data)
        (sanitizeOutput (summaryPrompt "B".data) "hello".data) =
      sanitizeOutput (summaryPrompt "B".data) "hello".data :=
  ⟨⟨by decide, by decide⟩,
   claim4_thm (summaryPrompt "B".data) "hello".data (by decide) (by decide)⟩

/-- Claim C10, confirmed.  The reply-all acknowledgment body always ends
with the fixed disclaimer (`mail.py` line 99), whether generation
succeeded, fell back to the default, or the invocation itself failed;
the self-addressed summary reply body never has the disclaimer added:
provided the backend's raw stdout does not itself contain the disclaimer
text, the summary body does not contain it (the sanitized output is a
contiguous substring of the stdout, or one of the fixed fallbacks). -/
theorem claim10_thm (backend : List Char → OllamaResult) (body : List Char)
    (h : strContains (stdoutOf (backend (summaryPrompt body))) disclaimerText = false) :
    disclaimerText <:+ ackReply backend body ∧
    strContains (summaryReply backend body) disclaimerText = false := by
  constructor
  · exact List.suffix_append _ _
  · unfold summaryReply generate_ai_reply
    cases hb : backend (summaryPrompt body) with
    | subprocessError =>
        show strContains executionErrorText disclaimerText = false
        decide
    | ok out =>
        show strContains (sanitizeOutput (summaryPrompt body) out) disclaimerText = false
        rw [hb] at h
        have hout : strContains out disclaimerText = false := h
        rcases sanitizeOutput_sub (summaryPrompt body) out with hfall | hinf
        · rw [hfall]; decide
        · cases hres : strContains (sanitizeOutput (summaryPrompt body) out) disclaimerText with
          | false => rfl
          | true =>
              have hdin : disclaimerText <:+: out :=
                ((strContains_iff _ _).mp hres).trans hinf
              rw [(strContains_iff out disclaimerText).mpr hdin] at hout
              exact hout

theorem claim10_wit :
    strContains (stdoutOf ((fun (_ : List Char) => OllamaResult.ok "hi there".data)
        (summaryPrompt "B".data))) disclaimerText = false ∧
    (disclaimerText <:+ ackReply (fun _ => OllamaResult.ok "hi there".data) "B".data ∧
     strContains (summaryReply (fun _ => OllamaResult.ok "hi there".data) "B".data)
       disclaimerText = false) :=
  ⟨by decide,
   claim10_thm (fun _ => OllamaResult.ok "hi there".data) "B".data (by decide)⟩

/-- Sample fetched message whose headers carry a `Message-ID`. -/
def msgWithMessageId : FullMsg :=
  { threadId := "t1".data,
    headers := [("Message-ID".data, "<m1@x>".data), ("Subject".data, "Hi".data),
                ("From".data, "s@y.com".data)],
    parts := none, topBody := none }

/-- Claim C8, counterexample.  Even when the original message carries a
`Message-ID` header, the composed reply-all acknowledgment has only `to`
and `subject` headers — `send_thread_reply` never sets an In-Reply-To or
References header (`mail.py` lines 111-133 set only to/cc/subject), so
the reply does not carry the identifier as its threading headers; it is
associated with the conversation only through the `threadId` of the send
request. -/
theorem claim8_cex :
    getHeader "Message-ID".data msgWithMessageId.headers = some "<m1@x>".data ∧
    attemptHeaderNames (process_email "me@x.com".data (fun _ => none)
        (fun _ => OllamaResult.subprocessError) (Fetched.ok msgWithMessageId)).ackAttempt =
      ["to".data, "subject".data] ∧
    "In-Reply-To".data ∉ attemptHeaderNames (process_email "me@x.com".data (fun _ => none)
        (fun _ => OllamaResult.subprocessError) (Fetched.ok msgWithMessageId)).ackAttempt ∧
    "References".data ∉ attemptHeaderNames (process_email "me@x.com".data (fun _ => none)
        (fun _ => OllamaResult.subprocessError) (Fetched.ok msgWithMessageId)).ackAttempt ∧
    attemptThreadId (process_email "me@x.com".data (fun _ => none)
        (fun _ => OllamaResult.subprocessError) (Fetched.ok msgWithMessageId)).ackAttempt =
      some "t1".data := by
  decide

/-- Claim C8, amended.  A composed reply never carries In-Reply-To or
References headers — every header of any sent payload is one of `to`,
`cc`, `subject` — and the reply is associated with the conversation only
via the provider's thread identifier, which is always propagated into the
send request. -/
theorem claim8_thm (myEmail threadId sender subject text cc : List Char) (toSelf : Bool)
    (p : SendPayload)
    (h : send_thread_reply myEmail threadId sender subject text cc toSelf =
      SendAttempt.sent p) :
    (∀ hd ∈ p.headers, hd.1 = "to".data ∨ hd.1 = "cc".data ∨ hd.1 = "subject".data) ∧
    p.threadId = threadId := by
  unfold send_thread_reply at h
  split at h
  · injection h with h'
    subst h'
    refine ⟨?_, rfl⟩
    intro hd hmem
    simp only [List.mem_cons, List.mem_singleton, List.not_mem_nil, or_false] at hmem
    rcases hmem with rfl | rfl
    · exact Or.inl rfl
    · exact Or.inr (Or.inr rfl)
  · split at h
    · cases h
    · by_cases hcc : cc.isEmpty = true
      · rw [if_pos hcc] at h
        split at h
        · cases h
        · injection h with h'
          subst h'
          refine ⟨?_, rfl⟩
          intro hd hmem
          simp only [List.mem_append, List.mem_cons, List.mem_singleton,
            List.not_mem_nil, or_false, false_or] at hmem
          rcases hmem with rfl | rfl
          · exact Or.inl rfl
          · exact Or.inr (Or.inr rfl)
      · rw [if_neg hcc] at h
        split at h
        · cases h
        · injection h with h'
          subst h'
          refine ⟨?_, rfl⟩
          intro hd hmem
          simp only [List.mem_append, List.mem_cons, List.mem_singleton,
            List.not_mem_nil, or_false, false_or] at hmem
          rcases hmem with (rfl | rfl) | rfl
          · exact Or.inl rfl
          · exact Or.inr (Or.inl rfl)
          · exact Or.inr (Or.inr rfl)

theorem claim8_wit :
    send_thread_reply "me@x.com".data "t9".data "s@y.com".data "Hi".data "b".data [] true =
      SendAttempt.sent
        { headers := [("to".data, "me@x.com".data), ("subject".data, "Re: Hi".data)],
          body := "b".data, threadId := "t9".data } ∧
    ((∀ hd ∈ [(("to".data : List Char), "me@x.com".data),
        ("subject".data, "Re: Hi".data)],
        hd.1 = "to".data ∨ hd.1 = "cc".data ∨ hd.1 = "subject".data) ∧
     ("t9".data : List Char) = "t9".data) :=
  ⟨by decide,
   claim8_thm "me@x.com".data "t9".data "s@y.com".data "Hi".data "b".data [] true
     { headers := [("to".data, "me@x.com".data), ("subject".data, "Re: Hi".data)],
       body := "b".data, threadId := "t9".data } (by decide)⟩

theorem isPre_cons_ne (a b : Char) (as bs : List Char) (h : (a == b) = false) :
    isPre (a :: as) (b :: bs) = false := by
  show (a == b && isPre as bs) = false
  rw [h, Bool.false_and]

/-- Claim C1, counterexample.  When the backend response is exactly the
rendered prompt followed by `"\nHere is the summary: X"`, the prompt-echo
split at `mail.py` lines 51-53 strips the prompt and, via `.strip()`, the
newline right after it — so the subsequent first-newline split at lines
55-56 finds no newline left and the preamble survives: the cleaned output
is `"Here is the summary: X"`, not `"X"`. -/
theorem claim1_cex :
    sanitizeOutput (summaryPrompt "B".data)
        (summaryPrompt "B".data ++ "\nHere is the summary: X".data) =
      "Here is the summary: X".data ∧
    "Here is the summary: X".data ≠ "X".data :=
  ⟨by decide, by decide⟩

/-- Claim C1, amended.  For every email body and every nonempty,
already-trimmed, newline-free summary text `X`, a backend response that is
exactly the rendered summary prompt followed by `"\nHere is the summary:
X"` sanitizes to `"Here is the summary: X"`: the prompt echo is stripped,
but the preamble on the same line as `X` is retained because the strip
after the prompt split consumes the only newline. -/
theorem claim1_thm (body X : List Char) (hne : X ≠ []) (hstrip : pyStrip X = X)
    (hnl : containsChar '\n' X = false) :
    sanitizeOutput (summaryPrompt body)
        (summaryPrompt body ++ ("\nHere is the summary: ".data ++ X)) =
      "Here is the summary: ".data ++ X := by
  have hlastX : ∀ c, X.getLast? = some c → isPySpace c = false :=
    getLast_not_space_of_pyStrip X hstrip
  have hPne : summaryPrompt body ≠ [] := by
    unfold summaryPrompt
    intro hnil
    rw [List.append_eq_nil] at hnil
    exact (by decide :
      ("###START###\nOutput only a concise summary of the email content in bullet points.\n###END###\n".data : List Char) ≠ []) hnil.1
  have hSXne : "\nHere is the summary: ".data ++ X ≠ [] := by
    intro hnil
    rw [List.append_eq_nil] at hnil
    exact (by decide : ("\nHere is the summary: ".data : List Char) ≠ []) hnil.1
  have hhead : (summaryPrompt body ++
      ("\nHere is the summary: ".data ++ X)).head? = some '#' := by
    unfold summaryPrompt
    rw [List.append_assoc, head?_append_left _ _ (by decide)]
    decide
  have hlastraw : ∀ c, (summaryPrompt body ++
      ("\nHere is the summary: ".data ++ X)).getLast? = some c → isPySpace c = false := by
    intro c hc
    rw [getLast?_append_right _ _ hSXne, getLast?_append_right _ _ hne] at hc
    exact hlastX c hc
  have ho1 : pyStrip (summaryPrompt body ++ ("\nHere is the summary: ".data ++ X)) =
      summaryPrompt body ++ ("\nHere is the summary: ".data ++ X) := by
    refine pyStrip_eq_self_of _ ?_ hlastraw
    intro c hc
    rw [hhead] at hc
    injection hc with hc'
    rw [← hc']
    decide
  have hcontains : strContains
      (summaryPrompt body ++ ("\nHere is the summary: ".data ++ X))
      (summaryPrompt body) = true :=
    (strContains_iff _ _).mpr
      (List.IsPrefix.isInfix ⟨"\nHere is the summary: ".data ++ X, rfl⟩)
  have hafter : afterFirst (summaryPrompt body)
      (summaryPrompt body ++ ("\nHere is the summary: ".data ++ X)) =
      "\nHere is the summary: ".data ++ X :=
    afterFirst_append _ _ hPne
  have hSXcons : "\nHere is the summary: ".data ++ X =
      '\n' :: ("Here is the summary: ".data ++ X) := by
    rw [show ("\nHere is the summary: ".data : List Char) =
      '\n' :: "Here is the summary: ".data from by decide]
    rfl
  have hheadtail : ∀ c, ("Here is the summary: ".data ++ X).head? = some c →
      isPySpace c = false := by
    intro c hc
    rw [head?_append_left _ _
      (by decide : ("Here is the summary: ".data : List Char) ≠ [])] at hc
    rw [show (("Here is the summary: ".data : List Char)).head? = some 'H' from by decide] at hc
    injection hc with hc'
    rw [← hc']
    decide
  have hstrip2 : pyStrip ("\nHere is the summary: ".data ++ X) =
      "Here is the summary: ".data ++ X := by
    unfold pyStrip
    rw [hSXcons]
    have hsl : stripLeft ('\n' :: ("Here is the summary: ".data ++ X)) =
        "Here is the summary: ".data ++ X := by
      show List.dropWhile isPySpace ('\n' :: ("Here is the summary: ".data ++ X)) =
        "Here is the summary: ".data ++ X
      rw [List.dropWhile_cons, if_pos (by decide)]
      exact dropWhile_eq_self_of_head isPySpace _ hheadtail
    rw [hsl]
    refine stripRight_eq_self_of_last _ ?_
    intro c hc
    rw [getLast?_append_right _ _ hne] at hc
    exact hlastX c hc
  have hnl2 : containsChar '\n' ("Here is the summary: ".data ++ X) = false := by
    unfold containsChar at hnl ⊢
    rw [List.any_append, hnl,
      show (("Here is the summary: ".data : List Char).any fun x => x == '\n') = false
        from by decide]
    rfl
  have hempty2 : ("Here is the summary: ".data ++ X).isEmpty = false := by
    rw [show ("Here is the summary: ".data : List Char) =
      'H' :: "ere is the summary: ".data from by decide]
    rfl
  have hprov2 : isPre "Provide".data ("Here is the summary: ".data ++ X) = false := by
    rw [show ("Here is the summary: ".data : List Char) =
        'H' :: "ere is the summary: ".data from by decide,
      show ("Provide".data : List Char) = 'P' :: "rovide".data from by decide]
    exact isPre_cons_ne 'P' 'H' _ _ (by decide)
  unfold sanitizeOutput
  rw [ho1]
  unfold sanitizeStep2
  rw [if_pos hcontains, hafter, hstrip2]
  unfold sanitizeStep3
  rw [if_neg (by rw [hnl2]; exact Bool.false_ne_true)]
  unfold sanitizeGuard
  rw [if_neg (by rw [hempty2, hprov2]; simp)]

theorem claim1_wit :
    (("X".data : List Char) ≠ [] ∧ pyStrip "X".data = "X".data ∧
     containsChar '\n' "X".data = false) ∧
    sanitizeOutput (summaryPrompt "B".data)
        (summaryPrompt "B".data ++ ("\nHere is the summary: ".data ++ "X".data)) =
      "Here is the summary: ".data ++ "X".data :=
  ⟨⟨by decide, by decide, by decide⟩,
   claim1_thm "B".data "X".data (by decide) (by decide) (by decide)⟩

end EchoBot
